import Mathlib

/-!
Verification of the Isaac Lab container session manager core
(`docker/runner.py`, `docker/src/container_interface.py`, `docker/src/gui/x11.py`)
against its natural-language specification.

The Python sources are shallowly embedded: pure branching code becomes Lean
functions, the statefile/filesystem side effects of the X11 credential manager
become explicit state passing over a world record, and the engine query of the
session registry becomes an `Except` parameter.
-/

/-- Modelled from the spec: the `GUIInterface` enumeration (`gui_interface.py` is not
among the provided sources; the spec gives `gui_mode: enum {none, x11, webrtc}` and
`runner.py` uses members `NONE`, `X11`, `WEBRTC`). -/
inductive GUIInterface where
  | NONE
  | X11
  | WEBRTC
  deriving DecidableEq, Repr

/-- Suffix test on strings, via the underlying character lists
(embeds Python `str.endswith`). -/
def endsWithS (s suf : String) : Bool :=
  List.isSuffixOf suf.data s.data

/-- Contiguous-sublist test on character lists, used to embed Python `x in s`. -/
def isSublistOf : List Char → List Char → Bool
  | sub, [] => sub.isEmpty
  | sub, c :: rest => List.isPrefixOf sub (c :: rest) || isSublistOf sub rest

/-- Substring test on strings, via the underlying character lists
(embeds Python `x in s`). -/
def containsSub (s sub : String) : Bool :=
  isSublistOf sub.data s.data

/-- Translated from `runner.py` lines 339-352: the profile mapping of
`_dispatch_cli_or_interactive` for the `start` action (if/elif chain on
`(gui, ros, remote)`). -/
def resolve_profile (gui : GUIInterface) (ros remote : Bool) : String :=
  if gui = GUIInterface.NONE ∧ ¬ ros then "base"
  else if gui = GUIInterface.NONE ∧ ros then "ros2"
  else if gui = GUIInterface.WEBRTC ∧ ¬ ros then
    (if remote then "webrtc-remote" else "webrtc-local")
  else if gui = GUIInterface.WEBRTC ∧ ros then
    (if remote then "ros2-webrtc-remote" else "ros2-webrtc-local")
  else if gui = GUIInterface.X11 ∧ ¬ ros then "base"
  else if gui = GUIInterface.X11 ∧ ros then "ros2"
  else "base"

/-- Translated from `runner.py` lines 367-373: the ordered env-file layer plan
passed to `ci.configure` at start (base, then ros2 if ros, then webrtc if
gui is WebRTC, then tailscale if WebRTC and remote). -/
def env_layers (gui : GUIInterface) (ros remote : Bool) : List String :=
  ["docker/envs/.env.base"]
  ++ (if ros then ["docker/envs/.env.ros2"] else [])
  ++ (if gui = GUIInterface.WEBRTC then ["docker/envs/.env.webrtc"] else [])
  ++ (if gui = GUIInterface.WEBRTC ∧ remote then ["docker/envs/.env.tailscale"] else [])

/-- Translated from `container_interface.py` lines 194-214 (`ContainerInterface.start`):
the compose-file overlay list, starting from `add_yamls` (the base compose file, since
the runner passes `yamls=[]`), adding the X11 overlay when the session is X11 with a
usable display, and the tailscale overlay when the profile is a remote WebRTC one. -/
def start_overlays (profile : String) (x11Active : Bool) : List String :=
  ["docker/composers/docker-compose.yaml"]
  ++ (if x11Active then ["docker/composers/docker-compose-x11.yaml"] else [])
  ++ (if profile = "webrtc-remote" ∨ profile = "ros2-webrtc-remote" then
        ["docker/composers/docker-compose-tailscale.yaml"] else [])

/-- A session record as reconstructed by `ContainerInterface.list_running_sessions`
(dict with keys id, name, session_id, nickname, profile, gui, access). -/
structure SessionRow where
  id : String
  name : String
  session_id : String
  nickname : String
  profile : String
  gui : String
  access : String
  deriving DecidableEq, Repr

/-- Translated from `container_interface.py` lines 137 and 151: the gui label
inferred from the profile string when the gui label is absent or empty. -/
def inferGui (profile : String) : String :=
  if containsSub profile "webrtc" then "webrtc" else "none"

/-- Translated from `container_interface.py` lines 138-139 and 152-154: the access
label inferred from the profile string when the access label is absent or empty. -/
def inferAccess (profile : String) : String :=
  if endsWithS profile "-remote" then "remote"
  else if containsSub profile "webrtc" then "local"
  else "unknown"

/-- Translated from `container_interface.py` lines 130-156: reconstruction of one
session record from the tab-separated fields of one `docker ps` output line.
Lines with at least 7 fields bind positionally (with the Python `gui or ...` and
`access or ...` fallbacks applying profile inference to empty labels); lines with
5 or 6 fields use the legacy inference; shorter lines are discarded. -/
def mkRow (parts : List String) : Option SessionRow :=
  if 7 ≤ parts.length then
    let profile := parts.getD 4 ""
    let gui := parts.getD 5 ""
    let access := parts.getD 6 ""
    some {
      id := parts.getD 0 ""
      name := parts.getD 1 ""
      session_id := parts.getD 2 ""
      nickname := parts.getD 3 ""
      profile := profile
      gui := if gui = "" then inferGui profile else gui
      access := if access = "" then inferAccess profile else access
    }
  else if 5 ≤ parts.length then
    let profile := parts.getD 4 ""
    some {
      id := parts.getD 0 ""
      name := parts.getD 1 ""
      session_id := parts.getD 2 ""
      nickname := parts.getD 3 ""
      profile := profile
      gui := inferGui profile
      access := inferAccess profile
    }
  else
    none

/-- Translated from `container_interface.py` lines 115-159
(`ContainerInterface.list_running_sessions`): the engine query is embedded as an
`Except` value holding the tab-split lines of `docker ps` output on success; the
surrounding try/except returns an empty list on any failure. -/
def list_running_sessions (queryResult : Except String (List (List String))) :
    List SessionRow :=
  match queryResult with
  | Except.error _ => []
  | Except.ok lines => lines.filterMap mkRow

/-- Translated from `runner.py` line 329: the guard deciding whether the
single-local-GUI conflict check runs at all for a start request. -/
def localGuiCheckApplies (gui : GUIInterface) (remote : Bool) : Bool :=
  !remote && (gui = GUIInterface.X11 ∨ gui = GUIInterface.WEBRTC)

/-- Translated from `runner.py` line 331: the per-row conflict condition of the
single-local-GUI check (profile ends with webrtc-local, or profile is base or ros2). -/
def conflictsWithLocalGui (r : SessionRow) : Bool :=
  endsWithS r.profile "webrtc-local" || (r.profile = "base" ∨ r.profile = "ros2")

/-- The outcome of the start dispatch: either the conflict check aborted the action
before any identifier was generated or engine call made, or a start plan
(profile and env layers) was produced. -/
inductive StartOutcome where
  | conflictAborted
  | started (profile : String) (envs : List String)
  deriving DecidableEq, Repr

/-- Translated from `runner.py` lines 309-376: the start branch of
`_dispatch_cli_or_interactive`. The conflict check (lines 328-333) runs before
`generate_session_id`, `generate_nickname`, `ci.configure` and `ci.start`; on
conflict the function returns with no plan. -/
def dispatch_start (gui : GUIInterface) (ros remote : Bool)
    (running : List SessionRow) : StartOutcome :=
  if localGuiCheckApplies gui remote && running.any conflictsWithLocalGui then
    StartOutcome.conflictAborted
  else
    StartOutcome.started (resolve_profile gui ros remote) (env_layers gui ros remote)

/-- Embeds Python `str.strip()` on a line: drop whitespace from both ends. -/
def pyStrip (s : List Char) : List Char :=
  ((s.dropWhile Char.isWhitespace).reverse.dropWhile Char.isWhitespace).reverse

/-- Translated from `container_interface.py` lines 444-445: strip a leading
`export ` keyword (detected case-insensitively) and left-trim the remainder. -/
def stripExportChars (l : List Char) : List Char :=
  if List.isPrefixOf "export ".data (l.map Char.toLower) then
    (l.drop 7).dropWhile Char.isWhitespace
  else l

/-- Translated from `container_interface.py` lines 429-434 (`_normalize_value`):
trim the value and strip one layer of matching surrounding quotes. -/
def normalizeValue (val : List Char) : List Char :=
  let v := pyStrip val
  if 2 ≤ v.length ∧ v.head? = v.getLast? ∧
      (v.head? = some '"' ∨ v.head? = some (Char.ofNat 39)) then
    (v.drop 1).dropLast
  else v

/-- Translated from `container_interface.py` lines 440-451: parse one line of an
env file into an optional key/value assignment (trim; skip empty and comment
lines; strip `export `; skip lines without an equals sign; split on the first
equals sign; trim the key; normalize the value). -/
def parseLine (raw : String) : Option (List Char × List Char) :=
  let line := pyStrip raw.data
  if line.isEmpty then none
  else if line.head? = some '#' then none
  else
    let l := stripExportChars line
    if l.contains '=' then
      some (pyStrip (l.takeWhile (fun c => c ≠ '=')),
            normalizeValue ((l.dropWhile (fun c => c ≠ '=')).drop 1))
    else none

/-- The assignments contributed by one env file, in line order. -/
def parseFile (lines : List String) : List (List Char × List Char) :=
  lines.filterMap parseLine

/-- All assignments of an ordered env-file list, in file order then line order. -/
def dotAssigns (files : List (List String)) : List (List Char × List Char) :=
  (files.map parseFile).flatten

/-- One dict update of `self.dot_vars[key] = val`
(`container_interface.py` line 451). -/
def applyAssign (m : List Char → Option (List Char)) (a : List Char × List Char) :
    List Char → Option (List Char) :=
  fun k => if a.1 == k then some a.2 else m k

/-- Translated from `container_interface.py` lines 413-451 (`_parse_dot_vars`):
the merged variable mapping of an ordered env-file list, each assignment
overwriting any prior value for the same key. -/
def dot_vars (files : List (List String)) : List Char → Option (List Char) :=
  (dotAssigns files).foldl applyAssign (fun _ => none)

/-- The value of the chronologically last assignment of a key across the layered
files (the spec's description of the merge result). -/
def lastDefined (files : List (List String)) (k : List Char) : Option (List Char) :=
  ((dotAssigns files).reverse.find? (fun a => a.1 == k)).map Prod.snd

/-- Translated from `container_interface.py` lines 61-64: the constructor silently
replaces the commonly passed but unreal profile name `isaaclab` by `base`. -/
def resolveCtorProfile (profile : String) : String :=
  if profile = "isaaclab" then "base" else profile

/-- Translated from `container_interface.py` lines 67-72: the rendered docker name
suffix (empty for a missing or empty suffix, else a hyphen followed by it). -/
def resolveSuffix (suffix : Option String) : String :=
  match suffix with
  | none => ""
  | some s => if s = "" then "" else "-" ++ s

/-- Translated from `container_interface.py` line 74: the derived container name. -/
def container_name (profile : String) (suffix : Option String) : String :=
  "isaac-lab-" ++ resolveCtorProfile profile ++ resolveSuffix suffix

/-- Translated from `container_interface.py` line 75: the derived image name. -/
def image_name (profile : String) (suffix : Option String) : String :=
  container_name profile suffix ++ ":latest"

/-- Lookup of a key in a section's key/value list. -/
def lookupKV : List (String × String) → String → Option String
  | [], _ => none
  | kv :: rest, k => if kv.1 == k then some kv.2 else lookupKV rest k

/-- Set a key in a section's key/value list, overwriting in place or appending. -/
def setKV : List (String × String) → String → String → List (String × String)
  | [], k, v => [(k, v)]
  | kv :: rest, k, v => if kv.1 == k then (k, v) :: rest else kv :: setKV rest k v

/-- Delete a key from a section's key/value list. -/
def delKV (l : List (String × String)) (k : String) : List (String × String) :=
  l.filter (fun kv => !(kv.1 == k))

/-- Modelled from the spec: the persistent state store of `state_file.py` (not among
the provided sources): a sectioned key/value store addressable by
`(namespace, key)`, supporting get/set/delete of a single key and delete of an
entire namespace section, sections created lazily (spec section 3,
"Persistent State Store"). -/
structure StateStore where
  sections : List (String × List (String × String))
  deriving DecidableEq, Repr

/-- Modelled from the spec: find a section of the store by its namespace name. -/
def getSection : List (String × List (String × String)) → String →
    Option (List (String × String))
  | [], _ => none
  | s :: rest, ns => if s.1 == ns then some s.2 else getSection rest ns

/-- Modelled from the spec: set a key within a namespace, creating the section
lazily. -/
def setInSections : List (String × List (String × String)) → String → String →
    String → List (String × List (String × String))
  | [], ns, k, v => [(ns, setKV [] k v)]
  | s :: rest, ns, k, v =>
    if s.1 == ns then (s.1, setKV s.2 k v) :: rest else s :: setInSections rest ns k v

/-- Modelled from the spec: read one key of one namespace. -/
def StateStore.get (st : StateStore) (ns k : String) : Option String :=
  match getSection st.sections ns with
  | none => none
  | some kvs => lookupKV kvs k

/-- Modelled from the spec: write one key of one namespace. -/
def StateStore.set (st : StateStore) (ns k v : String) : StateStore :=
  ⟨setInSections st.sections ns k v⟩

/-- Modelled from the spec: delete one key of one namespace. -/
def StateStore.deleteKey (st : StateStore) (ns k : String) : StateStore :=
  ⟨st.sections.map (fun s => if s.1 == ns then (s.1, delKV s.2 k) else s)⟩

/-- Modelled from the spec: delete an entire namespace section. -/
def StateStore.deleteSection (st : StateStore) (ns : String) : StateStore :=
  ⟨st.sections.filter (fun s => !(s.1 == ns))⟩

/-- The world the X11 credential manager acts on: the persistent state store, the
statefile's current namespace, and the host filesystem restricted to the xauth
credential files (path to cookie content). -/
structure X11World where
  statefile : StateStore
  nsCur : Option String
  fs : List (String × Nat)
  deriving DecidableEq, Repr

/-- Embeds `Path(p).exists()` over the modelled filesystem. -/
def fsExists (fs : List (String × Nat)) (p : String) : Bool :=
  fs.any (fun f => f.1 == p)

/-- Embeds `Path(p).unlink()` over the modelled filesystem. -/
def fsRemove (fs : List (String × Nat)) (p : String) : List (String × Nat) :=
  fs.filter (fun f => !(f.1 == p))

/-- Embeds file creation (`create_x11_tmpfile`) at a path with a cookie content. -/
def fsWrite (fs : List (String × Nat)) (p : String) (c : Nat) : List (String × Nat) :=
  (p, c) :: fsRemove fs p

/-- Reads the cookie content of a file of the modelled filesystem. -/
def fsRead (fs : List (String × Nat)) (p : String) : Option Nat :=
  (fs.find? (fun f => f.1 == p)).map Prod.snd

/-- Translated from `x11.py` lines 158-203 (`x11_refresh`): no-op when the statefile
namespace is unset; when a credential path is recorded and the file exists, unlink
it and regenerate a file at the same path with a fresh cookie and re-record the
unchanged path; when no path is recorded, exit non-zero (embedded as
`Except.error`) exactly when the forwarding-enabled flag equals "1", else no-op;
when a path is recorded but the file is missing, fall through (no-op). The fresh
host cookie produced by `xauth nlist` is the `freshCookie` parameter. -/
def x11_refresh (w : X11World) (freshCookie : Nat) : Except Unit X11World :=
  match w.nsCur with
  | none => Except.ok w
  | some ns =>
    let enabled := w.statefile.get ns "X11_FORWARDING_ENABLED"
    match w.statefile.get ns "__ISAACLAB_TMP_XAUTH" with
    | some p =>
      if fsExists w.fs p then
        Except.ok { w with
          fs := fsWrite (fsRemove w.fs p) p freshCookie,
          statefile := w.statefile.set ns "__ISAACLAB_TMP_XAUTH" p }
      else Except.ok w
    | none =>
      if enabled = some "1" then Except.error () else Except.ok w

/-- Translated from `x11.py` lines 94-118 (`x11_cleanup`): no-op when the statefile
namespace is unset; when a credential path is recorded and the file exists, unlink
the file, delete the key, and delete the namespace section (the section only when
the namespace string is nonempty); otherwise no-op. -/
def x11_cleanup (w : X11World) : X11World :=
  match w.nsCur with
  | none => w
  | some ns =>
    match w.statefile.get ns "__ISAACLAB_TMP_XAUTH" with
    | some p =>
      if fsExists w.fs p then
        let st1 := w.statefile.deleteKey ns "__ISAACLAB_TMP_XAUTH"
        let st2 := if ns = "" then st1 else st1.deleteSection ns
        { w with fs := fsRemove w.fs p, statefile := st2 }
      else w
    | none => w

/-- Translated from `x11.py` lines 21-63 (`configure_x11`, the credential `ensure`):
drop the legacy global X11 section when the namespace is set and differs from
`X11`; when no path is recorded or the recorded file is missing, create a fresh
credential file (the fresh temp path and host cookie are parameters) and record
its path; otherwise return the recorded path unchanged. The `xauth`-missing fatal
precondition is outside this model (assumed installed). -/
def configure_x11 (w : X11World) (freshPath : String) (freshCookie : Nat) :
    X11World × String :=
  match w.nsCur with
  | none => (w, "")
  | some ns =>
    let st0 := if ns ≠ "" ∧ ns ≠ "X11" then w.statefile.deleteSection "X11"
               else w.statefile
    match st0.get ns "__ISAACLAB_TMP_XAUTH" with
    | some p =>
      if fsExists w.fs p then ({ w with statefile := st0 }, p)
      else
        ({ w with statefile := st0.set ns "__ISAACLAB_TMP_XAUTH" freshPath,
                  fs := fsWrite w.fs freshPath freshCookie }, freshPath)
    | none =>
      ({ w with statefile := st0.set ns "__ISAACLAB_TMP_XAUTH" freshPath,
                fs := fsWrite w.fs freshPath freshCookie }, freshPath)

/-- The world of the C5 counterexample: the namespace records a credential path but
no file exists at it (and the forwarding-enabled flag is unset). -/
def refreshCexWorld : X11World :=
  { statefile := ⟨[("X11-s1", [("__ISAACLAB_TMP_XAUTH", "/tmp/xa/file.xauth")])]⟩,
    nsCur := some "X11-s1",
    fs := [] }

/-- A concrete world with a recorded, existing credential file, for the C5 witness. -/
def refreshWitnessWorld : X11World :=
  ⟨⟨[("X11-a", [("__ISAACLAB_TMP_XAUTH", "/tmp/w.xauth")])]⟩,
    some "X11-a", [("/tmp/w.xauth", 1)]⟩

/-- The world of the C7 counterexample: the namespace records a credential path but
the file is missing from disk. -/
def cleanupCexWorld : X11World :=
  { statefile := ⟨[("X11-s2", [("__ISAACLAB_TMP_XAUTH", "/tmp/xb/file.xauth")])]⟩,
    nsCur := some "X11-s2",
    fs := [] }

/-- C2: for all valid (gui, ros, remote) triples the profile mapping is total and
returns exactly one of the enumerated profiles per the table in section 4.5:
(none,no)→base, (none,yes)→ros2, (webrtc,no,no)→webrtc-local,
(webrtc,no,yes)→webrtc-remote, (webrtc,yes,no)→ros2-webrtc-local,
(webrtc,yes,yes)→ros2-webrtc-remote, (x11,no)→base, (x11,yes)→ros2. -/
theorem c2_profile_mapping :
    (∀ gui ros remote, resolve_profile gui ros remote ∈
      ["base", "ros2", "webrtc-local", "webrtc-remote",
       "ros2-webrtc-local", "ros2-webrtc-remote"])
    ∧ (∀ remote, resolve_profile GUIInterface.NONE false remote = "base")
    ∧ (∀ remote, resolve_profile GUIInterface.NONE true remote = "ros2")
    ∧ resolve_profile GUIInterface.WEBRTC false false = "webrtc-local"
    ∧ resolve_profile GUIInterface.WEBRTC false true = "webrtc-remote"
    ∧ resolve_profile GUIInterface.WEBRTC true false = "ros2-webrtc-local"
    ∧ resolve_profile GUIInterface.WEBRTC true true = "ros2-webrtc-remote"
    ∧ (∀ remote, resolve_profile GUIInterface.X11 false remote = "base")
    ∧ (∀ remote, resolve_profile GUIInterface.X11 true remote = "ros2") := by
  refine ⟨fun gui ros remote => ?_, fun r => ?_, fun r => ?_, by decide, by decide,
    by decide, by decide, fun r => ?_, fun r => ?_⟩
  case _ => cases gui <;> cases ros <;> cases remote <;> decide
  case _ => cases r <;> decide
  case _ => cases r <;> decide
  case _ => cases r <;> decide
  case _ => cases r <;> decide

/-- C3: the env-file layer list planned at start always begins with the base env
file, then the ros env file exactly when ros is enabled, then the webrtc env file
exactly when gui is webrtc, then the tailscale env file exactly when gui is webrtc
and remote, in that fixed relative order; (none,false,false) yields just the base
layer and (webrtc,true,true) yields all four layers plus the tailscale compose
overlay at engine bring-up. -/
theorem c3_env_layer_plan :
    (∀ gui ros remote, (env_layers gui ros remote).head? = some "docker/envs/.env.base")
    ∧ (∀ gui ros remote,
        "docker/envs/.env.ros2" ∈ env_layers gui ros remote ↔ ros = true)
    ∧ (∀ gui ros remote,
        "docker/envs/.env.webrtc" ∈ env_layers gui ros remote ↔ gui = GUIInterface.WEBRTC)
    ∧ (∀ gui ros remote,
        "docker/envs/.env.tailscale" ∈ env_layers gui ros remote ↔
          (gui = GUIInterface.WEBRTC ∧ remote = true))
    ∧ (∀ gui ros remote, List.Sublist (env_layers gui ros remote)
        ["docker/envs/.env.base", "docker/envs/.env.ros2",
         "docker/envs/.env.webrtc", "docker/envs/.env.tailscale"])
    ∧ env_layers GUIInterface.NONE false false = ["docker/envs/.env.base"]
    ∧ env_layers GUIInterface.WEBRTC true true =
        ["docker/envs/.env.base", "docker/envs/.env.ros2",
         "docker/envs/.env.webrtc", "docker/envs/.env.tailscale"]
    ∧ (∀ profile x11Active,
        "docker/composers/docker-compose-tailscale.yaml" ∈ start_overlays profile x11Active ↔
          (profile = "webrtc-remote" ∨ profile = "ros2-webrtc-remote"))
    ∧ "docker/composers/docker-compose-tailscale.yaml" ∈
        start_overlays (resolve_profile GUIInterface.WEBRTC true true) false := by
  refine ⟨fun gui ros remote => ?_, fun gui ros remote => ?_, fun gui ros remote => ?_,
    fun gui ros remote => ?_, fun gui ros remote => ?_, by decide, by decide,
    fun profile x11Active => ?_, by decide⟩
  case _ => cases gui <;> cases ros <;> cases remote <;> decide
  case _ => cases gui <;> cases ros <;> cases remote <;> decide
  case _ => cases gui <;> cases ros <;> cases remote <;> decide
  case _ => cases gui <;> cases ros <;> cases remote <;> decide
  case _ => cases gui <;> cases ros <;> cases remote <;> decide
  case _ =>
    by_cases hp : profile = "webrtc-remote" ∨ profile = "ros2-webrtc-remote" <;>
      cases x11Active <;> simp [start_overlays, hp]

/-- C8: on every failure of the engine listing query (embedded as the `Except.error`
case of the query result), `list_running_sessions` returns an empty list rather
than raising. -/
theorem c8_query_failure_empty (e : String) :
    list_running_sessions (Except.error e) = [] := rfl

/-- C10: constructing the container interface with profile "isaaclab" silently
replaces the profile with "base"; for every other profile p and suffix s the
derived container name is "isaac-lab-" ++ p when s is absent or empty and
"isaac-lab-" ++ p ++ "-" ++ s otherwise, and the image name is always the
container name with ":latest" appended. -/
theorem c10_container_name (p s : String) (hp : p ≠ "isaaclab") (hs : s ≠ "") :
    resolveCtorProfile "isaaclab" = "base"
    ∧ container_name "isaaclab" none = "isaac-lab-base"
    ∧ container_name p none = "isaac-lab-" ++ p
    ∧ container_name p (some "") = "isaac-lab-" ++ p
    ∧ container_name p (some s) = "isaac-lab-" ++ p ++ "-" ++ s
    ∧ (∀ q t, image_name q t = container_name q t ++ ":latest") := by
  refine ⟨by decide, by decide, ?_, ?_, ?_, fun q t => rfl⟩ <;>
    simp [container_name, resolveCtorProfile, resolveSuffix, hp, hs,
      String.append_assoc]

/-- Closed witness for C10 at profile "base" and suffix "custom"
(the example of the constructor's docstring). -/
theorem c10_container_name_witness :
    ("base" : String) ≠ "isaaclab" ∧ ("custom" : String) ≠ ""
    ∧ container_name "base" (some "custom") = "isaac-lab-base-custom" := by
  refine ⟨by decide, by decide, ?_⟩
  have h := (c10_container_name "base" "custom" (by decide) (by decide)).2.2.2.2.1
  rw [h]
  decide
/-- C1 counterexample: a running headless session (profile "base", gui label
"none") is not a local GUI session, yet a local start request (gui=x11,
remote=false) against a registry holding only that session is aborted by the
conflict check — refuting the claim that headless base/ros2 sessions do not count
as conflicting. -/
theorem c1_conflict_counterexample :
    (⟨"i", "isaac-lab-abc", "sid", "nick", "base", "none", "unknown"⟩ : SessionRow).gui
      = "none"
    ∧ (⟨"i", "isaac-lab-abc", "sid", "nick", "base", "none", "unknown"⟩ : SessionRow).profile
      = "base"
    ∧ dispatch_start GUIInterface.X11 false false
        [⟨"i", "isaac-lab-abc", "sid", "nick", "base", "none", "unknown"⟩]
      = StartOutcome.conflictAborted := by decide

/-- C1 (amended): the single-local-GUI check runs only when remote is false and
gui is x11 or webrtc (an x11 start with remote=true is not checked); the start
is aborted — with no identifiers generated and no engine bring-up, the outcome
carries no plan — exactly when some running session's profile ends with
"webrtc-local" or equals "base" or "ros2"; this over-approximates local GUI
sessions (headless base/ros2 sessions also conflict, since x11 sessions share
those profiles), while webrtc-remote and ros2-webrtc-remote profiles never
conflict; otherwise the start proceeds to the resolved profile and env layers. -/
theorem c1_local_gui_conflict (gui : GUIInterface) (ros remote : Bool)
    (running : List SessionRow) :
    (dispatch_start gui ros remote running = StartOutcome.conflictAborted ↔
      (remote = false ∧ (gui = GUIInterface.X11 ∨ gui = GUIInterface.WEBRTC) ∧
        ∃ r ∈ running, (endsWithS r.profile "webrtc-local" = true ∨
          r.profile = "base" ∨ r.profile = "ros2")))
    ∧ (dispatch_start gui ros remote running = StartOutcome.conflictAborted ∨
        dispatch_start gui ros remote running =
          StartOutcome.started (resolve_profile gui ros remote)
            (env_layers gui ros remote)) := by
  have hcond : (localGuiCheckApplies gui remote && running.any conflictsWithLocalGui)
      = true ↔
      (remote = false ∧ (gui = GUIInterface.X11 ∨ gui = GUIInterface.WEBRTC) ∧
        ∃ r ∈ running, (endsWithS r.profile "webrtc-local" = true ∨
          r.profile = "base" ∨ r.profile = "ros2")) := by
    simp [localGuiCheckApplies, conflictsWithLocalGui, List.any_eq_true,
      Bool.and_eq_true, Bool.not_eq_true', and_assoc]
  have hd : dispatch_start gui ros remote running = StartOutcome.conflictAborted ↔
      (localGuiCheckApplies gui remote && running.any conflictsWithLocalGui) = true := by
    rw [dispatch_start]
    cases h : (localGuiCheckApplies gui remote && running.any conflictsWithLocalGui) with
    | true => simp
    | false => simp
  constructor
  · exact hd.trans hcond
  · rw [dispatch_start]
    cases h : (localGuiCheckApplies gui remote && running.any conflictsWithLocalGui) with
    | true => simp
    | false => simp

/-- C6 counterexample: a raw line with 7 tab-separated fields whose gui and access
labels are empty strings does not map 1:1 positionally — the empty gui/access
fall back to profile-based inference ("none"/"unknown" for profile "base"). -/
theorem c6_row_counterexample :
    (["i", "n", "s", "k", "base", "", ""] : List String).length = 7
    ∧ (mkRow ["i", "n", "s", "k", "base", "", ""]).map SessionRow.gui = some "none"
    ∧ ¬ ((mkRow ["i", "n", "s", "k", "base", "", ""]).map SessionRow.gui =
          some (["i", "n", "s", "k", "base", "", ""].getD 5 "")) := by decide

/-- C6 (amended): a line with at least 7 fields maps 1:1 positionally when its gui
and access fields are nonempty, and an empty gui or access field falls back to
the same profile-based inference used for legacy lines; a legacy line with 5 or 6
fields infers gui as "webrtc" when the profile contains "webrtc" else "none" and
access as "remote" when the profile ends with "-remote", "local" when it contains
"webrtc" without that suffix, else "unknown" (profile "webrtc-remote" infers
gui "webrtc" and access "remote"; profile "base" infers gui "none" and access
"unknown"); lines with fewer than 5 fields are discarded. -/
theorem c6_row_reconstruction (parts : List String) :
    (7 ≤ parts.length → parts.getD 5 "" ≠ "" → parts.getD 6 "" ≠ "" →
      mkRow parts = some ⟨parts.getD 0 "", parts.getD 1 "", parts.getD 2 "",
        parts.getD 3 "", parts.getD 4 "", parts.getD 5 "", parts.getD 6 ""⟩)
    ∧ (7 ≤ parts.length →
      mkRow parts = some ⟨parts.getD 0 "", parts.getD 1 "", parts.getD 2 "",
        parts.getD 3 "", parts.getD 4 "",
        if parts.getD 5 "" = "" then inferGui (parts.getD 4 "") else parts.getD 5 "",
        if parts.getD 6 "" = "" then inferAccess (parts.getD 4 "") else parts.getD 6 ""⟩)
    ∧ (parts.length = 5 ∨ parts.length = 6 →
      mkRow parts = some ⟨parts.getD 0 "", parts.getD 1 "", parts.getD 2 "",
        parts.getD 3 "", parts.getD 4 "",
        inferGui (parts.getD 4 ""), inferAccess (parts.getD 4 "")⟩)
    ∧ (parts.length < 5 → mkRow parts = none)
    ∧ inferGui "webrtc-remote" = "webrtc" ∧ inferAccess "webrtc-remote" = "remote"
    ∧ inferGui "base" = "none" ∧ inferAccess "base" = "unknown" := by
  refine ⟨fun h7 hg ha => ?_, fun h7 => ?_, fun h56 => ?_, fun h5 => ?_,
    by decide, by decide, by decide, by decide⟩
  · simp [mkRow, h7]
    exact ⟨fun hh => absurd hh (by simpa using hg), fun hh => absurd hh (by simpa using ha)⟩
  · simp [mkRow, h7]
  · have hn7 : ¬ 7 ≤ parts.length := by omega
    have h5 : 5 ≤ parts.length := by omega
    simp [mkRow, hn7, h5]
  · have hn7 : ¬ 7 ≤ parts.length := by omega
    have hn5 : ¬ 5 ≤ parts.length := by omega
    simp [mkRow, hn7, hn5]

/-- Closed witness for C6 at a fully labeled 7-field line. -/
theorem c6_row_reconstruction_witness :
    mkRow ["1", "isaac-lab-x", "sid", "nick", "webrtc-local", "webrtc", "local"] =
      some ⟨"1", "isaac-lab-x", "sid", "nick", "webrtc-local", "webrtc", "local"⟩ := by
  have h := (c6_row_reconstruction
    ["1", "isaac-lab-x", "sid", "nick", "webrtc-local", "webrtc", "local"]).1
    (by decide) (by decide) (by decide)
  simpa using h

/-- Folding dict updates over an assignment list looks up the last assignment of
the key (scanning the reversed list), falling back to the initial mapping. -/
theorem foldl_applyAssign (l : List (List Char × List Char))
    (m : List Char → Option (List Char)) (k : List Char) :
    (l.foldl applyAssign m) k =
      match l.reverse.find? (fun a => a.1 == k) with
      | some a => some a.2
      | none => m k := by
  induction l generalizing m with
  | nil => rfl
  | cons a t ih =>
    rw [List.foldl_cons, ih, List.reverse_cons, List.find?_append]
    cases h : t.reverse.find? (fun x => x.1 == k) with
    | some b => rw [Option.or]
    | none =>
      rw [Option.or]
      cases ha : (a.1 == k) with
      | true => simp [List.find?, ha, applyAssign]
      | false => simp [List.find?, ha, applyAssign]

/-- C4: the merged variable mapping of the layered-env resolver assigns every key
the value of the last file (and within it the last line) that defines it — the
lookup of the chronologically last parsed assignment of that key — and in
particular merging a file defining X=1 under a file defining X=2 yields X=2. -/
theorem c4_layered_env_merge :
    (∀ files k, dot_vars files k = lastDefined files k)
    ∧ dot_vars [["X=1"], ["X=2"]] "X".data = some "2".data := by
  constructor
  · intro files k
    rw [dot_vars, lastDefined, foldl_applyAssign]
    cases h : (dotAssigns files).reverse.find? (fun a => a.1 == k) <;> simp [h]
  · decide
/-- C9: a line with no equals sign after trimming and export-prefix stripping is
silently skipped by the layered-env parser — it parses to no assignment, the file
with the line removed contributes the same assignments, and the merged mapping is
unchanged — and no error is raised (the parser is total). -/
theorem c9_no_equals_skipped (raw : String)
    (h : (stripExportChars (pyStrip raw.data)).contains '=' = false) :
    parseLine raw = none
    ∧ (∀ pre post : List String, parseFile (pre ++ raw :: post) = parseFile (pre ++ post))
    ∧ (∀ (fsBefore fsAfter : List (List String)) (pre post : List String) (k : List Char),
        dot_vars (fsBefore ++ (pre ++ raw :: post) :: fsAfter) k =
          dot_vars (fsBefore ++ (pre ++ post) :: fsAfter) k) := by
  have hnone : parseLine raw = none := by
    rw [parseLine]
    by_cases he : (pyStrip raw.data).isEmpty = true
    · simp [he]
    · by_cases hh : (pyStrip raw.data).head? = some '#'
      · simp [he, hh]
      · have h' : '=' ∉ stripExportChars (pyStrip raw.data) := by simpa using h
        simp [he, hh, h']
  have hfile : ∀ pre post : List String,
      parseFile (pre ++ raw :: post) = parseFile (pre ++ post) := by
    intro pre post
    rw [parseFile, parseFile, List.filterMap_append, List.filterMap_append,
      List.filterMap_cons, hnone]
  refine ⟨hnone, hfile, fun fsBefore fsAfter pre post k => ?_⟩
  rw [dot_vars, dot_vars, dotAssigns, dotAssigns, List.map_append, List.map_append,
    List.map_cons, List.map_cons, hfile]

/-- Closed witness for C9 on a concrete conforming-comment-like line. -/
theorem c9_no_equals_skipped_witness :
    (stripExportChars (pyStrip ("no equals here" : String).data)).contains '=' = false
    ∧ parseLine "no equals here" = none := by
  refine ⟨by decide, ?_⟩
  exact (c9_no_equals_skipped "no equals here" (by decide)).1

/-- Setting a key makes it look up to the written value. -/
theorem lookupKV_setKV_same (l : List (String × String)) (k v : String) :
    lookupKV (setKV l k v) k = some v := by
  induction l with
  | nil => simp [setKV, lookupKV]
  | cons kv rest ih =>
    cases h : (kv.1 == k) with
    | true => simp [setKV, h, lookupKV]
    | false => simp [setKV, h, lookupKV, ih]

/-- Setting a key of a namespace makes the store read it back. -/
theorem get_set_same_aux (l : List (String × List (String × String))) (ns k v : String) :
    (match getSection (setInSections l ns k v) ns with
     | none => none
     | some kvs => lookupKV kvs k) = some v := by
  induction l with
  | nil => simp [setInSections, getSection, lookupKV_setKV_same]
  | cons s rest ih =>
    cases h : (s.1 == ns) with
    | true => simp [setInSections, h, getSection, lookupKV_setKV_same]
    | false => simp [setInSections, h, getSection, ih]

/-- Store-level form of `get_set_same_aux`. -/
theorem get_set_same (st : StateStore) (ns k v : String) :
    (st.set ns k v).get ns k = some v := by
  rw [StateStore.get, StateStore.set]
  exact get_set_same_aux st.sections ns k v

/-- A deleted section can no longer be found. -/
theorem getSection_deleteSection_same (l : List (String × List (String × String)))
    (ns : String) :
    getSection (l.filter (fun s => !(s.1 == ns))) ns = none := by
  induction l with
  | nil => rfl
  | cons s rest ih =>
    cases h : (s.1 == ns) with
    | true => simp [List.filter_cons, h, ih]
    | false => simp [List.filter_cons, h, getSection, ih]

/-- Deleting a section empties every get on that namespace. -/
theorem get_deleteSection_same (st : StateStore) (ns k : String) :
    (st.deleteSection ns).get ns k = none := by
  rw [StateStore.get, StateStore.deleteSection]
  rw [getSection_deleteSection_same]

/-- Deleting one section leaves the other sections readable. -/
theorem getSection_deleteSection_ne (l : List (String × List (String × String)))
    (ns nsOther : String) (h : ns ≠ nsOther) :
    getSection (l.filter (fun s => !(s.1 == nsOther))) ns = getSection l ns := by
  induction l with
  | nil => rfl
  | cons s rest ih =>
    cases h1 : (s.1 == nsOther) with
    | true =>
      have h2 : (s.1 == ns) = false := by
        have heq : s.1 = nsOther := by simpa using h1
        simp [heq]
        exact fun hf => h hf.symm
      simp [List.filter_cons, h1, getSection, h2, ih]
    | false =>
      cases h2 : (s.1 == ns) with
      | true => simp [List.filter_cons, h1, getSection, h2]
      | false => simp [List.filter_cons, h1, getSection, h2, ih]

/-- Store-level form of `getSection_deleteSection_ne`. -/
theorem get_deleteSection_ne (st : StateStore) (ns nsOther k : String) (h : ns ≠ nsOther) :
    (st.deleteSection nsOther).get ns k = st.get ns k := by
  rw [StateStore.get, StateStore.deleteSection, StateStore.get]
  rw [getSection_deleteSection_ne st.sections ns nsOther h]

/-- A removed file no longer exists. -/
theorem fsExists_fsRemove_same (fs : List (String × Nat)) (p : String) :
    fsExists (fsRemove fs p) p = false := by
  induction fs with
  | nil => rfl
  | cons f rest ih =>
    cases h : (f.1 == p) with
    | true =>
      have ih' : fsExists (rest.filter (fun f => !(f.1 == p))) p = false := ih
      simp [fsRemove, List.filter_cons, h, ih']
    | false =>
      have ih' : fsExists (rest.filter (fun f => !(f.1 == p))) p = false := ih
      simp [fsRemove, List.filter_cons, h, fsExists, List.any_cons, ih']

/-- A written file exists. -/
theorem fsExists_fsWrite_same (fs : List (String × Nat)) (p : String) (c : Nat) :
    fsExists (fsWrite fs p c) p = true := by
  simp [fsExists, fsWrite, List.any_cons]

/-- A written file reads back its content. -/
theorem fsRead_fsWrite_same (fs : List (String × Nat)) (p : String) (c : Nat) :
    fsRead (fsWrite fs p c) p = some c := by
  simp [fsRead, fsWrite, List.find?_cons]

/-- C5 counterexample: a credential is recorded for the namespace, yet refresh
returns successfully without touching anything — the post-state equals the
pre-state and no file exists at the recorded path afterwards — refuting the claim
that a recorded credential is always deleted and regenerated with a fresh cookie. -/
theorem c5_refresh_counterexample :
    refreshCexWorld.statefile.get "X11-s1" "__ISAACLAB_TMP_XAUTH"
      = some "/tmp/xa/file.xauth"
    ∧ x11_refresh refreshCexWorld 7 = Except.ok refreshCexWorld
    ∧ fsExists refreshCexWorld.fs "/tmp/xa/file.xauth" = false := by
  exact ⟨rfl, rfl, rfl⟩

/-- C5 (amended): when a credential path is recorded for the namespace and its
file still exists, refresh succeeds, regenerates the file at the same path with
the fresh host cookie, and leaves the stored path value unchanged; when no path
is recorded, refresh is a no-op unless the forwarding-enabled flag equals "1",
in which case it fails with StateInconsistency (exits non-zero, embedded as
`Except.error`); when a path is recorded but the file is missing, refresh is a
silent no-op (it neither regenerates the file nor errors). -/
theorem c5_refresh_in_place (w : X11World) (fresh : Nat) (ns : String)
    (hns : w.nsCur = some ns) :
    (∀ p, w.statefile.get ns "__ISAACLAB_TMP_XAUTH" = some p → fsExists w.fs p = true →
      ∃ w', x11_refresh w fresh = Except.ok w'
        ∧ w'.statefile.get ns "__ISAACLAB_TMP_XAUTH" = some p
        ∧ fsRead w'.fs p = some fresh
        ∧ w'.nsCur = w.nsCur)
    ∧ (w.statefile.get ns "__ISAACLAB_TMP_XAUTH" = none →
        w.statefile.get ns "X11_FORWARDING_ENABLED" ≠ some "1" →
        x11_refresh w fresh = Except.ok w)
    ∧ (w.statefile.get ns "__ISAACLAB_TMP_XAUTH" = none →
        w.statefile.get ns "X11_FORWARDING_ENABLED" = some "1" →
        x11_refresh w fresh = Except.error ())
    ∧ (∀ p, w.statefile.get ns "__ISAACLAB_TMP_XAUTH" = some p →
        fsExists w.fs p = false → x11_refresh w fresh = Except.ok w) := by
  refine ⟨fun p hget hfs => ?_, fun hget hen => ?_, fun hget hen => ?_,
    fun p hget hfs => ?_⟩
  · refine ⟨⟨w.statefile.set ns "__ISAACLAB_TMP_XAUTH" p, w.nsCur,
      fsWrite (fsRemove w.fs p) p fresh⟩, ?_, ?_, ?_, rfl⟩
    · simp only [x11_refresh, hns, hget, hfs, if_true]
    · exact get_set_same w.statefile ns "__ISAACLAB_TMP_XAUTH" p
    · exact fsRead_fsWrite_same (fsRemove w.fs p) p fresh
  · simp only [x11_refresh, hns, hget]
    rw [if_neg hen]
  · simp only [x11_refresh, hns, hget]
    rw [if_pos hen]
  · simp only [x11_refresh, hns, hget, hfs, Bool.false_eq_true, if_false]

/-- Closed witness for C5: the concrete world refreshed with cookie 5. -/
theorem c5_refresh_in_place_witness :
    ∃ w', x11_refresh refreshWitnessWorld 5 = Except.ok w'
      ∧ w'.statefile.get "X11-a" "__ISAACLAB_TMP_XAUTH" = some "/tmp/w.xauth"
      ∧ fsRead w'.fs "/tmp/w.xauth" = some 5
      ∧ w'.nsCur = refreshWitnessWorld.nsCur :=
  (c5_refresh_in_place refreshWitnessWorld 5 "X11-a" rfl).1 "/tmp/w.xauth" rfl rfl

/-- C7 counterexample: a credential key is recorded but its file is missing;
cleanup returns the world unchanged, so the key is NOT deleted from the store and
the namespace section survives — refuting the claim that cleanup always deletes
the key and the entire namespace section. -/
theorem c7_cleanup_counterexample :
    cleanupCexWorld.statefile.get "X11-s2" "__ISAACLAB_TMP_XAUTH"
      = some "/tmp/xb/file.xauth"
    ∧ fsExists cleanupCexWorld.fs "/tmp/xb/file.xauth" = false
    ∧ x11_cleanup cleanupCexWorld = cleanupCexWorld
    ∧ (x11_cleanup cleanupCexWorld).statefile.get "X11-s2" "__ISAACLAB_TMP_XAUTH"
      = some "/tmp/xb/file.xauth" := by
  exact ⟨rfl, rfl, rfl, rfl⟩

/-- C7 (amended): cleanup deletes the credential file, its key, and the entire
namespace section exactly when a credential path is recorded and its file exists
on disk; cleanup performed after ensure (which leaves the file existing) leaves
no file on disk, no key in the store, and no namespace section; cleanup is a safe
no-op when nothing exists for the namespace (or when the statefile namespace is
unset), and it is also a no-op — leaving the key and section in place — when a
path is recorded but the file is already missing. -/
theorem c7_cleanup_after_ensure (w : X11World) (ns freshPath : String) (c : Nat)
    (hns : w.nsCur = some ns) (hne : ns ≠ "") :
    (∀ p, w.statefile.get ns "__ISAACLAB_TMP_XAUTH" = some p → fsExists w.fs p = true →
      fsExists (x11_cleanup w).fs p = false
      ∧ (x11_cleanup w).statefile.get ns "__ISAACLAB_TMP_XAUTH" = none
      ∧ getSection (x11_cleanup w).statefile.sections ns = none)
    ∧ (w.statefile.get ns "__ISAACLAB_TMP_XAUTH" = none →
        (configure_x11 w freshPath c).2 = freshPath
        ∧ fsExists (x11_cleanup ((configure_x11 w freshPath c).1)).fs freshPath = false
        ∧ (x11_cleanup ((configure_x11 w freshPath c).1)).statefile.get ns
            "__ISAACLAB_TMP_XAUTH" = none
        ∧ getSection (x11_cleanup ((configure_x11 w freshPath c).1)).statefile.sections ns
            = none)
    ∧ (w.statefile.get ns "__ISAACLAB_TMP_XAUTH" = none → x11_cleanup w = w)
    ∧ (∀ v : X11World, v.nsCur = none → x11_cleanup v = v)
    ∧ (∀ p, w.statefile.get ns "__ISAACLAB_TMP_XAUTH" = some p →
        fsExists w.fs p = false → x11_cleanup w = w) := by
  have hclean : ∀ (v : X11World) (p : String), v.nsCur = some ns →
      v.statefile.get ns "__ISAACLAB_TMP_XAUTH" = some p → fsExists v.fs p = true →
      fsExists (x11_cleanup v).fs p = false
      ∧ (x11_cleanup v).statefile.get ns "__ISAACLAB_TMP_XAUTH" = none
      ∧ getSection (x11_cleanup v).statefile.sections ns = none := by
    intro v p hvns hget hfs
    have hcv : x11_cleanup v =
        ⟨(v.statefile.deleteKey ns "__ISAACLAB_TMP_XAUTH").deleteSection ns,
          v.nsCur, fsRemove v.fs p⟩ := by
      simp only [x11_cleanup, hvns, hget, hfs, if_true, if_neg hne]
    rw [hcv]
    exact ⟨fsExists_fsRemove_same v.fs p,
      get_deleteSection_same _ ns "__ISAACLAB_TMP_XAUTH",
      getSection_deleteSection_same _ ns⟩
  refine ⟨fun p hget hfs => hclean w p hns hget hfs, fun hget => ?_, fun hget => ?_,
    fun v hv => ?_, fun p hget hfs => ?_⟩
  · have hst0 : (if ns ≠ "" ∧ ns ≠ "X11" then w.statefile.deleteSection "X11"
        else w.statefile).get ns "__ISAACLAB_TMP_XAUTH" = none := by
      by_cases hx : ns = "X11"
      · rw [if_neg (fun hc => hc.2 hx)]
        exact hget
      · rw [if_pos ⟨hne, hx⟩]
        rw [get_deleteSection_ne w.statefile ns "X11" "__ISAACLAB_TMP_XAUTH" hx]
        exact hget
    have hconf : configure_x11 w freshPath c =
        (⟨(if ns ≠ "" ∧ ns ≠ "X11" then w.statefile.deleteSection "X11"
            else w.statefile).set ns "__ISAACLAB_TMP_XAUTH" freshPath,
          w.nsCur, fsWrite w.fs freshPath c⟩, freshPath) := by
      simp only [configure_x11, hns, hst0]
    rw [hconf]
    refine ⟨rfl, ?_⟩
    exact hclean _ freshPath hns
      (get_set_same _ ns "__ISAACLAB_TMP_XAUTH" freshPath)
      (fsExists_fsWrite_same w.fs freshPath c)
  · simp only [x11_cleanup, hns, hget]
  · simp only [x11_cleanup, hv]
  · simp only [x11_cleanup, hns, hget, hfs, Bool.false_eq_true, if_false]

/-- Closed witness for C7: a fresh world, ensure then cleanup, leaves no file, no
key, and no section. -/
theorem c7_cleanup_after_ensure_witness :
    (configure_x11 ⟨⟨[]⟩, some "X11-w", []⟩ "/tmp/f.xauth" 3).2 = "/tmp/f.xauth"
    ∧ fsExists (x11_cleanup ((configure_x11 ⟨⟨[]⟩, some "X11-w", []⟩
        "/tmp/f.xauth" 3).1)).fs "/tmp/f.xauth" = false
    ∧ (x11_cleanup ((configure_x11 ⟨⟨[]⟩, some "X11-w", []⟩
        "/tmp/f.xauth" 3).1)).statefile.get "X11-w" "__ISAACLAB_TMP_XAUTH" = none
    ∧ getSection (x11_cleanup ((configure_x11 ⟨⟨[]⟩, some "X11-w", []⟩
        "/tmp/f.xauth" 3).1)).statefile.sections "X11-w" = none :=
  (c7_cleanup_after_ensure ⟨⟨[]⟩, some "X11-w", []⟩ "X11-w" "/tmp/f.xauth" 3
    rfl (by decide)).2.1 rfl

